import Mathlib

/-!
# Verification of the GSMI monitor (`src/monitor.py`)

Shallow embedding of the score engine, data-extraction pipeline, data loader
and decision-hint layer of `monitor.py`.  Scalar market readings are modelled
as rationals (`ℚ`); series are lists; fallible pandas indexing is modelled
with `Option`, and statements that can raise are sequenced in the
`Except String` monad, mirroring the top-level `try/except` of the script.
-/

namespace Monitor

/-- `s_tips = 20 if curr_tips < 1.0 else (10 if curr_tips <= 2.0 else 0)`
(monitor.py line 91). -/
def s_tips (curr_tips : ℚ) : ℕ :=
  if curr_tips < 1 then 20 else if curr_tips ≤ 2 then 10 else 0

/-- `s_dxy = 20 if curr_dxy < 100 else (10 if curr_dxy <= 105 else 0)`
(monitor.py line 92). -/
def s_dxy (curr_dxy : ℚ) : ℕ :=
  if curr_dxy < 100 then 20 else if curr_dxy ≤ 105 then 10 else 0

/-- `s_cash = 30 if fms_cash > 5.0 else (15 if fms_cash >= 4.0 else 0)`
(monitor.py line 93). -/
def s_cash (fms_cash : ℚ) : ℕ :=
  if fms_cash > 5 then 30 else if fms_cash ≥ 4 then 15 else 0

/-- `s_spread = 20 if curr_spread < 350 else (10 if curr_spread <= 500 else 0)`
(monitor.py line 94). -/
def s_spread (curr_spread : ℚ) : ℕ :=
  if curr_spread < 350 then 20 else if curr_spread ≤ 500 then 10 else 0

/-- `s_cg = 10 if curr_cg > ma200_cg else 0` (monitor.py line 95). -/
def s_cg (curr_cg ma200_cg : ℚ) : ℕ :=
  if curr_cg > ma200_cg then 10 else 0

/-- `gsmi_total = s_tips + s_dxy + s_cash + s_spread + s_cg`
(monitor.py line 96). -/
def gsmi_total (curr_tips curr_dxy fms_cash curr_spread curr_cg ma200_cg : ℚ) : ℕ :=
  s_tips curr_tips + s_dxy curr_dxy + s_cash fms_cash +
    s_spread curr_spread + s_cg curr_cg ma200_cg

/-! ## Band lemmas for the individual component scores -/

lemma s_tips_lo {t : ℚ} (h : t < 1) : s_tips t = 20 := by
  unfold s_tips; split_ifs <;> first | rfl | linarith

lemma s_tips_mid {t : ℚ} (h1 : 1 ≤ t) (h2 : t ≤ 2) : s_tips t = 10 := by
  unfold s_tips; split_ifs <;> first | rfl | linarith

lemma s_tips_hi {t : ℚ} (h : 2 < t) : s_tips t = 0 := by
  unfold s_tips; split_ifs <;> first | rfl | linarith

lemma s_dxy_lo {d : ℚ} (h : d < 100) : s_dxy d = 20 := by
  unfold s_dxy; split_ifs <;> first | rfl | linarith

lemma s_dxy_mid {d : ℚ} (h1 : 100 ≤ d) (h2 : d ≤ 105) : s_dxy d = 10 := by
  unfold s_dxy; split_ifs <;> first | rfl | linarith

lemma s_dxy_hi {d : ℚ} (h : 105 < d) : s_dxy d = 0 := by
  unfold s_dxy; split_ifs <;> first | rfl | linarith

lemma s_cash_hi {c : ℚ} (h : 5 < c) : s_cash c = 30 := by
  unfold s_cash; split_ifs <;> first | rfl | linarith

lemma s_cash_mid {c : ℚ} (h1 : 4 ≤ c) (h2 : c ≤ 5) : s_cash c = 15 := by
  unfold s_cash; split_ifs <;> first | rfl | linarith

lemma s_cash_lo {c : ℚ} (h : c < 4) : s_cash c = 0 := by
  unfold s_cash; split_ifs <;> first | rfl | linarith

lemma s_spread_lo {s : ℚ} (h : s < 350) : s_spread s = 20 := by
  unfold s_spread; split_ifs <;> first | rfl | linarith

lemma s_spread_mid {s : ℚ} (h1 : 350 ≤ s) (h2 : s ≤ 500) : s_spread s = 10 := by
  unfold s_spread; split_ifs <;> first | rfl | linarith

lemma s_spread_hi {s : ℚ} (h : 500 < s) : s_spread s = 0 := by
  unfold s_spread; split_ifs <;> first | rfl | linarith

lemma s_cg_above {cg ma : ℚ} (h : ma < cg) : s_cg cg ma = 10 := by
  unfold s_cg; split_ifs <;> first | rfl | linarith

lemma s_cg_below {cg ma : ℚ} (h : cg ≤ ma) : s_cg cg ma = 0 := by
  unfold s_cg; split_ifs <;> first | rfl | linarith

end Monitor

/-- C1: the Score Engine assigns component points exactly per the rule table
(real yield bands 20/10/0 at thresholds 1.0 and 2.0; currency index 20/10/0 at
100 and 105; survey cash 30/15/0 at 5.0 and 4.0; credit spread 20/10/0 at 350
and 500; momentum strictly above its moving average 10, else 0), and in
particular real yield 0.8 scores 20, currency index 102 scores 10, cash 5.5
scores 30, spread 420 scores 10, momentum above its MA scores 10. -/
theorem c1_rule_table (t d c s cg ma : ℚ) :
    (t < 1 → Monitor.s_tips t = 20) ∧
    (1 ≤ t → t ≤ 2 → Monitor.s_tips t = 10) ∧
    (2 < t → Monitor.s_tips t = 0) ∧
    (d < 100 → Monitor.s_dxy d = 20) ∧
    (100 ≤ d → d ≤ 105 → Monitor.s_dxy d = 10) ∧
    (105 < d → Monitor.s_dxy d = 0) ∧
    (5 < c → Monitor.s_cash c = 30) ∧
    (4 ≤ c → c ≤ 5 → Monitor.s_cash c = 15) ∧
    (c < 4 → Monitor.s_cash c = 0) ∧
    (s < 350 → Monitor.s_spread s = 20) ∧
    (350 ≤ s → s ≤ 500 → Monitor.s_spread s = 10) ∧
    (500 < s → Monitor.s_spread s = 0) ∧
    (ma < cg → Monitor.s_cg cg ma = 10) ∧
    (cg ≤ ma → Monitor.s_cg cg ma = 0) ∧
    Monitor.s_tips (8/10) = 20 ∧ Monitor.s_dxy 102 = 10 ∧
    Monitor.s_cash (11/2) = 30 ∧ Monitor.s_spread 420 = 10 := by
  refine ⟨Monitor.s_tips_lo, Monitor.s_tips_mid, Monitor.s_tips_hi,
    Monitor.s_dxy_lo, Monitor.s_dxy_mid, Monitor.s_dxy_hi,
    Monitor.s_cash_hi, Monitor.s_cash_mid, Monitor.s_cash_lo,
    Monitor.s_spread_lo, Monitor.s_spread_mid, Monitor.s_spread_hi,
    Monitor.s_cg_above, Monitor.s_cg_below, ?_, ?_, ?_, ?_⟩
  · exact Monitor.s_tips_lo (by norm_num)
  · exact Monitor.s_dxy_mid (by norm_num) (by norm_num)
  · exact Monitor.s_cash_hi (by norm_num)
  · exact Monitor.s_spread_mid (by norm_num) (by norm_num)

/-- Witness for C1: the rule-table theorem applied at the concrete inputs of
the spec's examples (real yield 0.8, currency 102, cash 5.5, spread 420,
momentum 2 vs. MA 1). -/
theorem c1_rule_table_witness :
    Monitor.s_tips (8/10) = 20 ∧ Monitor.s_dxy 102 = 10 ∧
    Monitor.s_cash (11/2) = 30 ∧ Monitor.s_spread 420 = 10 ∧
    Monitor.s_cg 2 1 = 10 := by
  obtain ⟨h1, -, -, -, h2, -, h3, -, -, -, h4, -, h5, -⟩ :=
    c1_rule_table (8/10) 102 (11/2) 420 2 1
  exact ⟨h1 (by norm_num), h2 (by norm_num) (by norm_num), h3 (by norm_num),
    h4 (by norm_num) (by norm_num), h5 (by norm_num)⟩

/-- C3: at the exact boundary inputs the engine resolves to the documented
side: real yield 1.0 → 10, currency index 100 → 10, survey cash 5.0 → 15,
credit spread 350 → 10. -/
theorem c3_boundaries :
    Monitor.s_tips 1 = 10 ∧ Monitor.s_dxy 100 = 10 ∧
    Monitor.s_cash 5 = 15 ∧ Monitor.s_spread 350 = 10 := by
  refine ⟨?_, ?_, ?_, ?_⟩ <;> decide

namespace Monitor

/-! ## Component bounds and enumerations -/

lemma s_tips_cases (t : ℚ) : s_tips t = 0 ∨ s_tips t = 10 ∨ s_tips t = 20 := by
  unfold s_tips; split_ifs <;> simp

lemma s_dxy_cases (d : ℚ) : s_dxy d = 0 ∨ s_dxy d = 10 ∨ s_dxy d = 20 := by
  unfold s_dxy; split_ifs <;> simp

lemma s_cash_cases (c : ℚ) : s_cash c = 0 ∨ s_cash c = 15 ∨ s_cash c = 30 := by
  unfold s_cash; split_ifs <;> simp

lemma s_spread_cases (s : ℚ) : s_spread s = 0 ∨ s_spread s = 10 ∨ s_spread s = 20 := by
  unfold s_spread; split_ifs <;> simp

lemma s_cg_cases (cg ma : ℚ) : s_cg cg ma = 0 ∨ s_cg cg ma = 10 := by
  unfold s_cg; split_ifs <;> simp

lemma gsmi_total_le_100 (t d c s cg ma : ℚ) : gsmi_total t d c s cg ma ≤ 100 := by
  unfold gsmi_total
  rcases s_tips_cases t with h1 | h1 | h1 <;>
    rcases s_dxy_cases d with h2 | h2 | h2 <;>
      rcases s_cash_cases c with h3 | h3 | h3 <;>
        rcases s_spread_cases s with h4 | h4 | h4 <;>
          rcases s_cg_cases cg ma with h5 | h5 <;>
            rw [h1, h2, h3, h4, h5] <;> norm_num

end Monitor

/-- C2: the composite GSMI score is the plain (unweighted) sum of the five
component scores, always an integer in [0, 100]; a fully healthy input set
(real yield < 1, currency < 100, cash > 5, spread < 350, momentum above its
MA) sums to exactly 100, and a fully unhealthy one (real yield > 2, currency
> 105, cash < 4, spread > 500, momentum at/below its MA) to exactly 0. -/
theorem c2_total_sum_and_range (t d c s cg ma : ℚ) :
    Monitor.gsmi_total t d c s cg ma =
      Monitor.s_tips t + Monitor.s_dxy d + Monitor.s_cash c +
        Monitor.s_spread s + Monitor.s_cg cg ma ∧
    Monitor.gsmi_total t d c s cg ma ≤ 100 ∧
    (t < 1 → d < 100 → 5 < c → s < 350 → ma < cg →
      Monitor.gsmi_total t d c s cg ma = 100) ∧
    (2 < t → 105 < d → c < 4 → 500 < s → cg ≤ ma →
      Monitor.gsmi_total t d c s cg ma = 0) := by
  refine ⟨rfl, Monitor.gsmi_total_le_100 t d c s cg ma, ?_, ?_⟩
  · intro h1 h2 h3 h4 h5
    unfold Monitor.gsmi_total
    rw [Monitor.s_tips_lo h1, Monitor.s_dxy_lo h2, Monitor.s_cash_hi h3,
      Monitor.s_spread_lo h4, Monitor.s_cg_above h5]
  · intro h1 h2 h3 h4 h5
    unfold Monitor.gsmi_total
    rw [Monitor.s_tips_hi h1, Monitor.s_dxy_hi h2, Monitor.s_cash_lo h3,
      Monitor.s_spread_hi h4, Monitor.s_cg_below h5]

/-- Witness for C2: the healthy input set (0.5, 95, 6, 300, cg 2 vs. MA 1)
scores exactly 100 and the unhealthy one (3, 110, 3, 600, cg 1 vs. MA 2)
exactly 0. -/
theorem c2_total_sum_and_range_witness :
    Monitor.gsmi_total (1/2) 95 6 300 2 1 = 100 ∧
    Monitor.gsmi_total 3 110 3 600 1 2 = 0 :=
  ⟨((c2_total_sum_and_range (1/2) 95 6 300 2 1).2.2.1 (by norm_num)
      (by norm_num) (by norm_num) (by norm_num) (by norm_num)),
   ((c2_total_sum_and_range 3 110 3 600 1 2).2.2.2 (by norm_num)
      (by norm_num) (by norm_num) (by norm_num) (by norm_num))⟩

namespace Monitor

/-! ## Series, pandas-style extraction, and the data-loading pipeline

A fetched series is a `List ℚ` once cleaned; a raw provider series may hold
missing values and is a `List (Option ℚ)`.  Statements of the script that can
raise are sequenced in `Except String`, matching the top-level `try/except`.
-/

/-- `ser.iloc[-k]` for `k ≥ 1`: the `k`-th element from the end, raising
(`none`) when the series is shorter than `k`. -/
def ilocNeg (xs : List ℚ) (k : ℕ) : Option ℚ :=
  if k ≤ xs.length then (xs.drop (xs.length - k)).head? else none

/-- `ser.rolling(200).mean().dropna()`: the list of means of each full
200-element window; empty when the series has fewer than 200 entries. -/
def rollingMean200 (xs : List ℚ) : List ℚ :=
  (List.range xs.length).filterMap fun i =>
    if 200 ≤ i + 1 then some (((xs.drop (i + 1 - 200)).take 200).sum / 200)
    else none

/-- Turn a fallible pandas access into the exception it raises when the
access is out of bounds. -/
def getOrThrow (msg : String) : Option ℚ → Except String ℚ
  | some x => Except.ok x
  | none => Except.error msg

/-- The error message of an out-of-bounds positional `iloc` access. -/
def idxErr : String := "single positional indexer is out-of-bounds"

/-- The cleaned Yahoo-Finance close-price frame: one column per ticker. -/
structure PriceFrame where
  dxy : List ℚ
  copper : List ℚ
  gold : List ℚ
  hkd : List ℚ

/-- `price_df.empty`: the frame has no rows. -/
def PriceFrame.isEmpty (f : PriceFrame) : Prop :=
  f.dxy = [] ∧ f.copper = [] ∧ f.gold = [] ∧ f.hkd = []

/-- Lines 76–96 of monitor.py: the scalar extractions (each raises an
`IndexError` on a too-short series) followed by the GSMI scoring.  The copper
/gold ratio and its 200-day moving average follow lines 85–88; when the MA
series is empty the script falls back to `curr_cg` itself. -/
def computeScore (tips_ser : List ℚ) (price_df : PriceFrame)
    (spread_ser : List ℚ) (fms_cash : ℚ) : Except String ℕ := do
  let curr_tips ← getOrThrow idxErr (ilocNeg tips_ser 1)
  let _prev_tips ← getOrThrow idxErr (ilocNeg tips_ser 5)
  let curr_dxy ← getOrThrow idxErr (ilocNeg price_df.dxy 1)
  let _prev_dxy ← getOrThrow idxErr (ilocNeg price_df.dxy 5)
  let curr_spread ← getOrThrow idxErr (ilocNeg spread_ser 1)
  let _prev_spread ← getOrThrow idxErr (ilocNeg spread_ser 5)
  let _curr_hkd ← getOrThrow idxErr (ilocNeg price_df.hkd 1)
  let cg_series := List.zipWith (fun a b => a / b) price_df.copper price_df.gold
  let curr_cg ← getOrThrow idxErr (ilocNeg cg_series 1)
  let ma200_cg_ser := rollingMean200 cg_series
  let ma200_cg :=
    match ma200_cg_ser.getLast? with
    | some x => x
    | none => curr_cg
  return gsmi_total curr_tips curr_dxy fms_cash curr_spread curr_cg ma200_cg

lemma exceptOk_bind {α β : Type} (x : α) (f : α → Except String β) :
    ((Except.ok x : Except String α) >>= f) = f x := rfl

lemma getOrThrow_none_bind {msg : String} {f : ℚ → Except String ℕ} :
    (getOrThrow msg none >>= f) = Except.error msg := rfl

lemma getOrThrow_some_bind {msg : String} {x : ℚ} {f : ℚ → Except String ℕ} :
    (getOrThrow msg (some x) >>= f) = f x := rfl

/-- `ser.ffill()` given the last value seen so far. -/
def ffillFrom (last : Option ℚ) : List (Option ℚ) → List (Option ℚ)
  | [] => []
  | none :: rest => last :: ffillFrom last rest
  | some x :: rest => some x :: ffillFrom (some x) rest

/-- `ser.ffill()`: forward-fill missing entries. -/
def ffill (xs : List (Option ℚ)) : List (Option ℚ) := ffillFrom none xs

/-- `ser.dropna()`: keep the present entries. -/
def dropna (xs : List (Option ℚ)) : List ℚ := xs.filterMap id

/-- The raw Yahoo-Finance close frame, possibly with missing values. -/
structure RawFrame where
  dxy : List (Option ℚ)
  copper : List (Option ℚ)
  gold : List (Option ℚ)
  hkd : List (Option ℚ)

/-- `raw_df['Close'].ffill().dropna()` (lines 63–66; both branches of the
`isinstance` test do the same cleaning): forward-fill each column, then drop
every row in which some column is still missing. -/
def frameClean (f : RawFrame) : PriceFrame :=
  let rows := ((ffill f.dxy).zip (ffill f.copper)).zip
    ((ffill f.gold).zip (ffill f.hkd))
  let good := rows.filterMap fun r =>
    match r with
    | ((some a, some b), (some c, some d)) => some (a, b, c, d)
    | _ => none
  { dxy := good.map fun r => r.1
    copper := good.map fun r => r.2.1
    gold := good.map fun r => r.2.2.1
    hkd := good.map fun r => r.2.2.2 }

/-- The two external data providers: each call either returns a raw series
(resp. frame) or raises. -/
structure Providers where
  fredTips : Except String (List (Option ℚ))
  fredSpread : Except String (List (Option ℚ))
  yfDownload : Except String RawFrame

/-- `fetch_data()` (monitor.py lines 48–68).  The body contains no
`try/except`: a raising provider call propagates out of `fetch_data`. -/
def fetch_data (p : Providers) : Except String (List ℚ × PriceFrame × List ℚ) := do
  let tips_raw ← p.fredTips
  let spread_raw ← p.fredSpread
  let tips := dropna (ffill tips_raw)
  let spread := dropna (ffill spread_raw)
  let raw_df ← p.yfDownload
  let price_df := frameClean raw_df
  return (tips, price_df, spread)

/-- The body of the top-level `try` (line 72 onwards) up to the computation
of `gsmi_total`. -/
def runApp (p : Providers) (fms_cash : ℚ) : Except String ℕ := do
  let r ← fetch_data p
  computeScore r.1 r.2.1 r.2.2 fms_cash

/-- The top-level `try/except` (lines 72 and 281–282): a successful run
yields the score, any raised exception is converted to the `st.error`
message shown to the user. -/
def appOutput (p : Providers) (fms_cash : ℚ) : String ⊕ ℕ :=
  match runApp p fms_cash with
  | Except.ok n => Sum.inr n
  | Except.error e => Sum.inl ("数据处理异常: " ++ e)

end Monitor

namespace Monitor

/-- Any empty fetched series makes the extraction raise before `gsmi_total`
is reached. -/
lemma computeScore_error_of_empty (tips : List ℚ) (pf : PriceFrame)
    (spread : List ℚ) (cash : ℚ)
    (h : tips = [] ∨ pf.isEmpty ∨ spread = []) :
    ∃ msg, computeScore tips pf spread cash = Except.error msg := by
  have hnil : ilocNeg [] 1 = none := rfl
  refine ⟨idxErr, ?_⟩
  rcases h with h | h | h
  · subst h
    simp [computeScore, hnil, getOrThrow_none_bind]
  · obtain ⟨hd, hc, hg, hh⟩ := h
    cases h1 : ilocNeg tips 1 <;> cases h2 : ilocNeg tips 5 <;>
      simp [computeScore, h1, h2, hd, hnil, getOrThrow_none_bind,
        getOrThrow_some_bind]
  · subst h
    cases h1 : ilocNeg tips 1 <;> cases h2 : ilocNeg tips 5 <;>
      cases h3 : ilocNeg pf.dxy 1 <;> cases h4 : ilocNeg pf.dxy 5 <;>
        simp [computeScore, h1, h2, h3, h4, hnil, getOrThrow_none_bind,
          getOrThrow_some_bind]

end Monitor

/-- C5: when any fetched input series (real-yield series, price frame, or
credit-spread series) comes back empty, the engine produces no composite
score: the extraction raises before `gsmi_total` is computed, no substitute
values are invented, and the top-level handler surfaces a user-visible error
message instead. -/
theorem c5_empty_series_halts (p : Monitor.Providers) (cash : ℚ)
    (tips : List ℚ) (pf : Monitor.PriceFrame) (spread : List ℚ)
    (hfetch : Monitor.fetch_data p = Except.ok (tips, pf, spread))
    (hempty : tips = [] ∨ pf.isEmpty ∨ spread = []) :
    (∃ msg, Monitor.computeScore tips pf spread cash = Except.error msg) ∧
    ∃ m, Monitor.appOutput p cash = Sum.inl m := by
  obtain ⟨msg, hmsg⟩ :=
    Monitor.computeScore_error_of_empty tips pf spread cash hempty
  refine ⟨⟨msg, hmsg⟩, ⟨"数据处理异常: " ++ msg, ?_⟩⟩
  simp [Monitor.appOutput, Monitor.runApp, hfetch, hmsg, Monitor.exceptOk_bind]

/-- Witness for C5: providers that return empty series end the run in an
error message and no score. -/
theorem c5_empty_series_halts_witness :
    (∃ msg, Monitor.computeScore [] ⟨[], [], [], []⟩ [] (9/2)
        = Except.error msg) ∧
    ∃ m, Monitor.appOutput
        ⟨Except.ok [], Except.ok [], Except.ok ⟨[], [], [], []⟩⟩ (9/2)
      = Sum.inl m :=
  c5_empty_series_halts
    ⟨Except.ok [], Except.ok [], Except.ok ⟨[], [], [], []⟩⟩ (9/2)
    [] ⟨[], [], [], []⟩ [] rfl (Or.inl rfl)

/-- C4: when the 200-period moving-average series of the copper/gold ratio is
empty (insufficient history), scoring does not fail: the momentum component
contributes 0 points and the composite score is produced from the remaining
four components. -/
theorem c4_empty_ma_no_bonus (tips : List ℚ) (pf : Monitor.PriceFrame)
    (spread : List ℚ) (cash ct pt cd pd cs ps ch ccg : ℚ)
    (h1 : Monitor.ilocNeg tips 1 = some ct)
    (h2 : Monitor.ilocNeg tips 5 = some pt)
    (h3 : Monitor.ilocNeg pf.dxy 1 = some cd)
    (h4 : Monitor.ilocNeg pf.dxy 5 = some pd)
    (h5 : Monitor.ilocNeg spread 1 = some cs)
    (h6 : Monitor.ilocNeg spread 5 = some ps)
    (h7 : Monitor.ilocNeg pf.hkd 1 = some ch)
    (h8 : Monitor.ilocNeg
        (List.zipWith (fun a b => a / b) pf.copper pf.gold) 1 = some ccg)
    (hma : Monitor.rollingMean200
        (List.zipWith (fun a b => a / b) pf.copper pf.gold) = []) :
    Monitor.s_cg ccg ccg = 0 ∧
    Monitor.computeScore tips pf spread cash =
      Except.ok (Monitor.s_tips ct + Monitor.s_dxy cd + Monitor.s_cash cash +
        Monitor.s_spread cs + 0) := by
  have hcg : Monitor.s_cg ccg ccg = 0 := Monitor.s_cg_below (le_refl ccg)
  refine ⟨hcg, ?_⟩
  simp only [Monitor.computeScore, h1, h2, h3, h4, h5, h6, h7, h8, hma,
    Monitor.getOrThrow_some_bind, List.getLast?_nil]
  simp only [Monitor.gsmi_total, hcg]
  rfl

/-- Witness for C4: five-day series (too short for a 200-day MA) still yield
a score, with no momentum bonus. -/
theorem c4_empty_ma_no_bonus_witness :
    Monitor.computeScore [1, 1, 1, 1, 1/2]
        ⟨[101, 101, 101, 101, 101], [1, 1, 1, 1, 1],
          [2, 2, 2, 2, 2], [7, 7, 7, 7, 7]⟩
        [400, 400, 400, 400, 400] (9/2) = Except.ok 55 := by
  have h := c4_empty_ma_no_bonus [1, 1, 1, 1, 1/2]
    ⟨[101, 101, 101, 101, 101], [1, 1, 1, 1, 1],
      [2, 2, 2, 2, 2], [7, 7, 7, 7, 7]⟩
    [400, 400, 400, 400, 400] (9/2) (1/2) 1 101 101 400 400 7 (1/2)
    (by norm_num [Monitor.ilocNeg]) (by norm_num [Monitor.ilocNeg])
    (by norm_num [Monitor.ilocNeg]) (by norm_num [Monitor.ilocNeg])
    (by norm_num [Monitor.ilocNeg]) (by norm_num [Monitor.ilocNeg])
    (by norm_num [Monitor.ilocNeg]) (by norm_num [Monitor.ilocNeg])
    (by norm_num [Monitor.rollingMean200]; intro a ha hc; omega)
  rw [h.2]
  norm_num [Monitor.s_tips, Monitor.s_dxy, Monitor.s_cash, Monitor.s_spread]

namespace Monitor

/-! ## The decision-hint layer (monitor.py lines 248–268) -/

/-- The fixed set of textual advisories of the automated decision matrix. -/
inductive Advisory where
  | aggressive
  | domesticLed
  | neutralBuy
  | shortSqueeze
  | bottomAmbush
  | waitAndSee
  | bullTrap
  | defensive
deriving DecidableEq

/-- The decision matrix (lines 248–268), mapping the composite score, the
momentum gap, the manually entered short-interest ratio and the currency
level to one advisory.  The literals 1.5, 7.81 and 2.0 are written as the
equal rationals 3/2, 781/100 and 2. -/
def decideAdvisory (gsmi_total : ℕ) (momentum_gap hk_short_ratio current_hkd : ℚ) :
    Advisory :=
  if gsmi_total ≥ 70 then
    if momentum_gap > 3/2 ∧ current_hkd < 781/100 then Advisory.aggressive
    else if momentum_gap < -(3/2) then Advisory.domesticLed
    else Advisory.neutralBuy
  else if 45 ≤ gsmi_total ∧ gsmi_total < 70 then
    if momentum_gap > 2 then Advisory.shortSqueeze
    else if hk_short_ratio > 20 then Advisory.bottomAmbush
    else Advisory.waitAndSee
  else
    if momentum_gap > 0 then Advisory.bullTrap
    else Advisory.defensive

/-- The guard condition of each branch of the decision matrix, spelled as the
full path condition through the nested `if`/`elif`/`else`. -/
def pathCond (g : ℕ) (mg r hkd : ℚ) : Advisory → Prop
  | Advisory.aggressive => g ≥ 70 ∧ (mg > 3/2 ∧ hkd < 781/100)
  | Advisory.domesticLed => g ≥ 70 ∧ ¬(mg > 3/2 ∧ hkd < 781/100) ∧ mg < -(3/2)
  | Advisory.neutralBuy => g ≥ 70 ∧ ¬(mg > 3/2 ∧ hkd < 781/100) ∧ ¬(mg < -(3/2))
  | Advisory.shortSqueeze => ¬(g ≥ 70) ∧ (45 ≤ g ∧ g < 70) ∧ mg > 2
  | Advisory.bottomAmbush => ¬(g ≥ 70) ∧ (45 ≤ g ∧ g < 70) ∧ ¬(mg > 2) ∧ r > 20
  | Advisory.waitAndSee => ¬(g ≥ 70) ∧ (45 ≤ g ∧ g < 70) ∧ ¬(mg > 2) ∧ ¬(r > 20)
  | Advisory.bullTrap => ¬(g ≥ 70) ∧ ¬(45 ≤ g ∧ g < 70) ∧ mg > 0
  | Advisory.defensive => ¬(g ≥ 70) ∧ ¬(45 ≤ g ∧ g < 70) ∧ ¬(mg > 0)

end Monitor

/-- C7: for every combination of composite score, momentum gap,
short-interest ratio and currency level, the decision matrix selects exactly
one advisory: the advisory it returns satisfies its branch's path condition
(exhaustiveness), and no two distinct branches' path conditions can hold at
once (mutual exclusion). -/
theorem c7_decision_matrix_total (g : ℕ) (mg r hkd : ℚ) :
    Monitor.pathCond g mg r hkd (Monitor.decideAdvisory g mg r hkd) ∧
    ∀ a b : Monitor.Advisory, Monitor.pathCond g mg r hkd a →
      Monitor.pathCond g mg r hkd b → a = b := by
  constructor
  · unfold Monitor.decideAdvisory
    split_ifs with h1 h2 h3 h4 h5 h6 h7 h8 <;> simp_all [Monitor.pathCond]
  · intro a b ha hb
    cases a <;> cases b <;> simp only [Monitor.pathCond] at ha hb <;>
      first | rfl | tauto

/-- Witness for C7: at score 80, gap 2, ratio 10, currency 7.8 the matrix
selects the aggressive branch, whose path condition holds, and mutual
exclusion applied to two derivations of that branch gives reflexivity. -/
theorem c7_decision_matrix_total_witness :
    Monitor.pathCond 80 2 10 (78/10)
      (Monitor.decideAdvisory 80 2 10 (78/10)) ∧
    Monitor.Advisory.aggressive = Monitor.Advisory.aggressive :=
  ⟨(c7_decision_matrix_total 80 2 10 (78/10)).1,
   (c7_decision_matrix_total 80 2 10 (78/10)).2 _ _
     (by norm_num [Monitor.pathCond]) (by norm_num [Monitor.pathCond])⟩

namespace Monitor

/-- The short-interest ratio slider is read only inside the middle score
band, and only after the momentum-gap test fails. -/
lemma decideAdvisory_r_indep (g : ℕ) (mg hkd r1 r2 : ℚ)
    (h : ¬(45 ≤ g ∧ g < 70 ∧ mg ≤ 2)) :
    decideAdvisory g mg r1 hkd = decideAdvisory g mg r2 hkd := by
  by_cases hg : g ≥ 70
  · simp only [decideAdvisory, if_pos hg]
  · by_cases hmid : 45 ≤ g ∧ g < 70
    · have hmg : mg > 2 := by
        by_contra hmg2
        exact h ⟨hmid.1, hmid.2, not_lt.mp hmg2⟩
      simp only [decideAdvisory, if_neg hg, if_pos hmid, if_pos hmg]
    · simp only [decideAdvisory, if_neg hg, if_neg hmid]

/-! ## Monotonicity of the component scores -/

lemma s_tips_anti {a b : ℚ} (h : a ≤ b) : s_tips b ≤ s_tips a := by
  unfold s_tips; split_ifs <;> first | (exfalso; linarith) | norm_num

lemma s_dxy_anti {a b : ℚ} (h : a ≤ b) : s_dxy b ≤ s_dxy a := by
  unfold s_dxy; split_ifs <;> first | (exfalso; linarith) | norm_num

lemma s_spread_anti {a b : ℚ} (h : a ≤ b) : s_spread b ≤ s_spread a := by
  unfold s_spread; split_ifs <;> first | (exfalso; linarith) | norm_num

lemma s_cash_mono {a b : ℚ} (h : a ≤ b) : s_cash a ≤ s_cash b := by
  unfold s_cash; split_ifs <;> first | (exfalso; linarith) | norm_num

/-- Every composite total is a multiple of five. -/
lemma five_dvd_gsmi_total (t d c s cg ma : ℚ) : 5 ∣ gsmi_total t d c s cg ma := by
  unfold gsmi_total
  rcases s_tips_cases t with h1 | h1 | h1 <;>
    rcases s_dxy_cases d with h2 | h2 | h2 <;>
      rcases s_cash_cases c with h3 | h3 | h3 <;>
        rcases s_spread_cases s with h4 | h4 | h4 <;>
          rcases s_cg_cases cg ma with h5 | h5 <;>
            rw [h1, h2, h3, h4, h5] <;> norm_num

end Monitor

/-- C6 counterexample: `fetch_data` does not return normally with an empty
series when a provider call fails — with the FRED real-yield fetch raising
"network error", `fetch_data` itself propagates the error and returns no
value at all. -/
theorem c6_counterexample_no_substitution :
    Monitor.fetch_data ⟨Except.error "network error", Except.ok [],
      Except.ok ⟨[], [], [], []⟩⟩ = Except.error "network error" ∧
    (Monitor.fetch_data ⟨Except.error "network error", Except.ok [],
      Except.ok ⟨[], [], [], []⟩⟩).toOption = none :=
  ⟨rfl, rfl⟩

/-- C6 amended: a provider-call failure during data loading is not caught
inside `fetch_data` and no empty series is substituted; the error propagates
out of `fetch_data` (whichever of the three provider calls fails), and it is
the top-level handler that converts it into the user-visible message. -/
theorem c6_amended_fetch_propagates (msg : String)
    (tips_raw spread_raw : List (Option ℚ))
    (sp : Except String (List (Option ℚ)))
    (yf : Except String Monitor.RawFrame) (cash : ℚ) :
    Monitor.fetch_data ⟨Except.error msg, sp, yf⟩ = Except.error msg ∧
    Monitor.fetch_data ⟨Except.ok tips_raw, Except.error msg, yf⟩
      = Except.error msg ∧
    Monitor.fetch_data ⟨Except.ok tips_raw, Except.ok spread_raw,
      Except.error msg⟩ = Except.error msg ∧
    Monitor.appOutput ⟨Except.error msg, sp, yf⟩ cash
      = Sum.inl ("数据处理异常: " ++ msg) :=
  ⟨rfl, rfl, rfl, rfl⟩

/-- C8: holding the other inputs fixed, the composite score is monotonically
non-increasing in the real yield, the currency-index level and the credit
spread, and monotonically non-decreasing in the survey cash percentage. -/
theorem c8_total_monotone (t t2 d d2 c c2 s s2 cg ma : ℚ) :
    (t ≤ t2 → Monitor.gsmi_total t2 d c s cg ma ≤ Monitor.gsmi_total t d c s cg ma) ∧
    (d ≤ d2 → Monitor.gsmi_total t d2 c s cg ma ≤ Monitor.gsmi_total t d c s cg ma) ∧
    (s ≤ s2 → Monitor.gsmi_total t d c s2 cg ma ≤ Monitor.gsmi_total t d c s cg ma) ∧
    (c ≤ c2 → Monitor.gsmi_total t d c s cg ma ≤ Monitor.gsmi_total t d c2 s cg ma) := by
  refine ⟨fun h => ?_, fun h => ?_, fun h => ?_, fun h => ?_⟩ <;>
    unfold Monitor.gsmi_total
  · have := Monitor.s_tips_anti h
    omega
  · have := Monitor.s_dxy_anti h
    omega
  · have := Monitor.s_spread_anti h
    omega
  · have := Monitor.s_cash_mono h
    omega

/-- Witness for C8: raising the real yield from 0.5 to 3, the currency index
from 95 to 110, the spread from 300 to 600 never raises the total, and
raising cash from 3 to 6 never lowers it, at concrete inputs. -/
theorem c8_total_monotone_witness :
    Monitor.gsmi_total 3 95 (9/2) 300 2 1 ≤ Monitor.gsmi_total (1/2) 95 (9/2) 300 2 1 ∧
    Monitor.gsmi_total (1/2) 110 (9/2) 300 2 1 ≤ Monitor.gsmi_total (1/2) 95 (9/2) 300 2 1 ∧
    Monitor.gsmi_total (1/2) 95 (9/2) 600 2 1 ≤ Monitor.gsmi_total (1/2) 95 (9/2) 300 2 1 ∧
    Monitor.gsmi_total (1/2) 95 3 300 2 1 ≤ Monitor.gsmi_total (1/2) 95 6 300 2 1 :=
  ⟨(c8_total_monotone (1/2) 3 95 95 (9/2) (9/2) 300 300 2 1).1 (by norm_num),
   (c8_total_monotone (1/2) 3 95 110 (9/2) (9/2) 300 300 2 1).2.1 (by norm_num),
   (c8_total_monotone (1/2) 3 95 95 (9/2) (9/2) 300 600 2 1).2.2.1 (by norm_num),
   (c8_total_monotone (1/2) 3 95 95 3 6 300 300 2 1).2.2.2 (by norm_num)⟩

/-- C9: each component score lies in its fixed enumeration (0/10/20 for real
yield, currency and spread; 0/15/30 for cash; 0/10 for momentum), so every
composite total is a multiple of 5, and not every integer in [0, 100] is
attainable: no input yields the total 1. -/
theorem c9_component_enumerations (t d c s cg ma : ℚ) :
    (Monitor.s_tips t = 0 ∨ Monitor.s_tips t = 10 ∨ Monitor.s_tips t = 20) ∧
    (Monitor.s_dxy d = 0 ∨ Monitor.s_dxy d = 10 ∨ Monitor.s_dxy d = 20) ∧
    (Monitor.s_cash c = 0 ∨ Monitor.s_cash c = 15 ∨ Monitor.s_cash c = 30) ∧
    (Monitor.s_spread s = 0 ∨ Monitor.s_spread s = 10 ∨ Monitor.s_spread s = 20) ∧
    (Monitor.s_cg cg ma = 0 ∨ Monitor.s_cg cg ma = 10) ∧
    5 ∣ Monitor.gsmi_total t d c s cg ma ∧
    (1 ≤ 100 ∧ ∀ t2 d2 c2 s2 cg2 ma2 : ℚ,
      Monitor.gsmi_total t2 d2 c2 s2 cg2 ma2 ≠ 1) := by
  refine ⟨Monitor.s_tips_cases t, Monitor.s_dxy_cases d, Monitor.s_cash_cases c,
    Monitor.s_spread_cases s, Monitor.s_cg_cases cg ma,
    Monitor.five_dvd_gsmi_total t d c s cg ma, by norm_num, ?_⟩
  intro t2 d2 c2 s2 cg2 ma2 heq
  have hdvd := Monitor.five_dvd_gsmi_total t2 d2 c2 s2 cg2 ma2
  rw [heq] at hdvd
  norm_num at hdvd

/-- Witness for C9: the enumeration theorem applied at a concrete input, and
the total 1 is unattainable in particular at that input. -/
theorem c9_component_enumerations_witness :
    (Monitor.s_tips 3 = 0 ∨ Monitor.s_tips 3 = 10 ∨ Monitor.s_tips 3 = 20) ∧
    Monitor.gsmi_total 3 110 3 600 1 2 ≠ 1 := by
  obtain ⟨ha, -, -, -, -, -, -, hne⟩ := c9_component_enumerations 3 110 3 600 1 2
  exact ⟨ha, hne 3 110 3 600 1 2⟩

/-- C10: whenever the composite score is at least 70 or strictly below 45 the
selected advisory is independent of the manually entered short-interest
ratio, and two runs that differ only in that ratio can select different
advisories only in the 45–69 band with momentum gap at most 2. -/
theorem c10_short_ratio_noninterference (g : ℕ) (mg hkd r1 r2 : ℚ) :
    (70 ≤ g ∨ g < 45 →
      Monitor.decideAdvisory g mg r1 hkd = Monitor.decideAdvisory g mg r2 hkd) ∧
    (Monitor.decideAdvisory g mg r1 hkd ≠ Monitor.decideAdvisory g mg r2 hkd →
      45 ≤ g ∧ g < 70 ∧ mg ≤ 2) := by
  constructor
  · intro h
    apply Monitor.decideAdvisory_r_indep
    rintro ⟨h45, h70, -⟩
    rcases h with h | h <;> omega
  · intro hne
    by_contra hcon
    exact hne (Monitor.decideAdvisory_r_indep g mg hkd r1 r2 hcon)

/-- Witness for C10: at score 80 the advisory ignores the ratio (5 vs. 30),
and at score 50 with gap 0 the ratio does flip the advisory (25 vs. 10),
which forces the middle band with gap at most 2. -/
theorem c10_short_ratio_noninterference_witness :
    Monitor.decideAdvisory 80 0 5 (78/10) = Monitor.decideAdvisory 80 0 30 (78/10) ∧
    (45 ≤ 50 ∧ 50 < 70 ∧ (0 : ℚ) ≤ 2) :=
  ⟨(c10_short_ratio_noninterference 80 0 (78/10) 5 30).1 (Or.inl (by norm_num)),
   (c10_short_ratio_noninterference 50 0 (78/10) 25 10).2
     (by norm_num [Monitor.decideAdvisory]; decide)⟩
